import Mathlib

/-!
Verification development for the server-manager CLI process supervisor
(`server_manager.py`).  The data model and its operations are embedded
shallowly: every operation is a pure Lean function from the supervisor
state (plus the environmental inputs the Python code reads: the spawn
result, clock timestamp, filesystem failure modes) to the new state
together with a list of externally visible effects.  Machine-level
concurrency for the stop-vs-restart-watcher race is modelled separately
as an explicit interleaved transition system.
-/

namespace SrvMgr

/-- Result of an OS process spawn (`subprocess.Popen`): a pid, whether the
process is still alive (`poll() is None`), and whether a stdin pipe was
attached. -/
structure Proc where
  pid : Nat
  alive : Bool
  hasStdin : Bool
deriving Repr, DecidableEq

/-- Externally visible effects of the supervisor operations: printed
messages, registry persistence, log-file operations, process spawns and
terminations, stdin writes, and scaffolding file creation. -/
inductive Effect where
  | msg (text : String)
  | saveRegistry
  | rotateRename (src dst : String)
  | rotateCopyDelete (src dst : String)
  | openLogWrite (path : String)
  | spawn (cmd : List String)
  | startMonitor
  | disarmWatcher
  | terminate
  | writeStdin (text : String)
  | mkdirp (path : String)
  | createFile (path : String) (content : String)
deriving Repr, DecidableEq

/-- Whether an effect creates, deletes or modifies a file on disk
(registry persistence `servers.json` is tracked separately from log
files, matching the spec's "log files untouched" wording). -/
def Effect.touchesFiles : Effect → Bool
  | .rotateRename _ _ => true
  | .rotateCopyDelete _ _ => true
  | .openLogWrite _ => true
  | .mkdirp _ => true
  | .createFile _ _ => true
  | _ => false

/-- Flat model of the log directory: an association list from path to
file content. -/
abbrev FS := List (String × String)

def FS.get (fs : FS) (p : String) : Option String :=
  (fs.find? (fun e => e.1 == p)).map (fun e => e.2)

def FS.contains (fs : FS) (p : String) : Bool :=
  fs.any (fun e => e.1 == p)

def FS.del (fs : FS) (p : String) : FS :=
  fs.filter (fun e => e.1 != p)

def FS.set (fs : FS) (p v : String) : FS :=
  (p, v) :: fs.del p

def FS.rename (fs : FS) (src dst : String) : FS :=
  match fs.get src with
  | none => fs
  | some v => (fs.del src).set dst v

/-- The per-process supervisor state: the fields of the Python `Server`
object that its operations read and write.  `restart_thread_alive`
models `self.restart_thread and self.restart_thread.is_alive()`,
`restart_stop` models the `threading.Event`. -/
structure Server where
  name : String
  path : String
  type : String
  auto_restart : Bool
  monitor_enabled : Bool
  process : Option Proc
  retry_count : Nat
  max_retries : Nat
  restart_stop : Bool
  restart_thread_alive : Bool
deriving Repr, DecidableEq

/-- Constructor `Server.__init__`: fresh supervisor state for a named
program. -/
def mkServer (name path ty : String) (auto_restart : Bool) : Server :=
  { name := name, path := path, type := ty, auto_restart := auto_restart,
    monitor_enabled := false, process := none,
    retry_count := 0, max_retries := 3,
    restart_stop := false, restart_thread_alive := false }

/-- Python `Server.is_running`: the process handle exists and
`poll() is None`. -/
def Server.is_running (s : Server) : Bool :=
  match s.process with
  | some p => p.alive
  | none => false

/-- Current log file path `LOGS_DIR / f"{name}.log"`. -/
def Server.log_file (s : Server) : String :=
  "logs/" ++ s.name ++ ".log"

/-- Rotated log file name `LOGS_DIR / f"{name}_{timestamp}.log"`. -/
def rotatedName (name timestamp : String) : String :=
  "logs/" ++ name ++ "_" ++ timestamp ++ ".log"

/-- Python `Server._rotate_log`.  `renameFails` models the `rename`
raising (e.g. cross-device), `copyFails` models the byte-copy fallback
raising; both exceptions are swallowed, the second with a printed
warning. -/
def Server._rotate_log (renameFails copyFails : Bool) (timestamp : String)
    (s : Server) (fs : FS) : FS × List Effect :=
  if fs.contains s.log_file then
    let rotated := rotatedName s.name timestamp
    if !renameFails then
      (fs.rename s.log_file rotated, [.rotateRename s.log_file rotated])
    else if !copyFails then
      ((fs.set rotated ((fs.get s.log_file).getD "")).del s.log_file,
        [.rotateCopyDelete s.log_file rotated])
    else
      (fs, [.msg ("Failed to rotate log for " ++ s.name)])
  else (fs, [])

/-- Launch-command resolution, the dict lookup at the top of
`Server.start`: `python` runs `sys.executable` (the host interpreter,
passed in as `sysExe`) on the target file, `node` runs the fixed binary
name `node` on it; anything else is unmapped. -/
def launchCmd (sysExe : String) (ty path : String) : Option (List String) :=
  if ty == "python" then some [sysExe, path]
  else if ty == "node" then some ["node", path]
  else none

/-- Python `Server.start_restart_monitor`: if the watcher thread is
already alive this is a no-op (in particular `retry_count` is NOT
reset); otherwise the stop event is cleared, `retry_count` is reset to
0 and a fresh watcher thread is launched. -/
def Server.start_restart_monitor (s : Server) : Server :=
  if s.restart_thread_alive then s
  else { s with restart_stop := false, retry_count := 0,
                restart_thread_alive := true }

/-- Python `Server.start`.  Environmental inputs: `sysExe` is the value
of `sys.executable`, `newProc` the handle `subprocess.Popen` returns,
`renameFails`/`copyFails` the log-rotation failure modes, `timestamp`
the current clock reading used for the rotated name. -/
def Server.start (sysExe : String) (newProc : Proc)
    (renameFails copyFails : Bool) (timestamp : String)
    (s : Server) (fs : FS) : Server × FS × List Effect :=
  if s.is_running then
    (s, fs, [.msg (s.name ++ " is already running.")])
  else
    match launchCmd sysExe s.type s.path with
    | none => (s, fs, [.msg ("Unknown server type for " ++ s.name)])
    | some cmd =>
      let rot := s._rotate_log renameFails copyFails timestamp fs
      let fs2 := rot.1.set s.log_file ""
      let s1 := { s with process := some newProc }
      let monEffs := if s1.monitor_enabled then [Effect.startMonitor] else []
      let s2 := if s1.auto_restart then s1.start_restart_monitor else s1
      (s2, fs2,
        rot.2 ++
          [.openLogWrite s.log_file, .spawn cmd,
           .msg ("Server " ++ s.name ++ " started (PID: " ++
                 toString newProc.pid ++ "). Logs: " ++ s.log_file)] ++
          monEffs)

/-- Python `Server.stop`, sequential (no-interleaving) semantics: set the
watcher's stop event and join it, then terminate the process if it is
running (the concurrent refinement of this operation is the
`StopRace` transition system below). -/
def Server.stop (s : Server) : Server × List Effect :=
  let s1 := { s with restart_stop := true, restart_thread_alive := false }
  if s1.is_running then
    let s2 := { s1 with process := s1.process.map (fun p => { p with alive := false }) }
    (s2, [.disarmWatcher, .terminate,
          .msg ("Server " ++ s.name ++ " stopped.")])
  else
    (s1, [.disarmWatcher, .msg (s.name ++ " is not running.")])

/-- Python `Server.send_input`: write `text` plus a newline to the stdin
pipe when running, otherwise (or when the write raises, modelled by
`writeFails`) print a notice; the server state is never mutated. -/
def Server.send_input (writeFails : Bool) (s : Server) (text : String) :
    Server × List Effect :=
  if s.is_running && (s.process.map (fun p => p.hasStdin)).getD false then
    if writeFails then
      (s, [.msg ("Failed to send input to " ++ s.name)])
    else
      (s, [.writeStdin (text ++ "\n")])
  else
    (s, [.msg (s.name ++ " is not running.")])

/-- Model of Python `str.lower()`: character-wise ASCII lowering
(equivalent to `String.toLower`, stated over the character list so it
reduces in the kernel). -/
def lowerStr (s : String) : String :=
  String.mk (s.data.map Char.toLower)

/-- Python `Server.EXT_MAP` lookup on a lower-cased suffix. -/
def EXT_MAP (ext : String) : Option String :=
  if ext == ".py" then some "python"
  else if ext == ".js" then some "node"
  else if ext == ".mjs" then some "node"
  else none

/-- Abstract view of a `pathlib.Path` argument: the raw string, its stem
and its suffix. -/
structure PathInfo where
  str : String
  stem : String
  suffix : String
deriving Repr, DecidableEq

/-- Python `ServerManager.get_server`: first registered server with the
given name. -/
def get_server (name : String) (servers : List Server) : Option Server :=
  servers.find? (fun s => s.name == name)

/-- Removal of the first server with the given name (Python
`self.servers.remove(s)` where `s` came from `get_server`, so the first
name match is removed by identity). -/
def removeFirst (name : String) : List Server → List Server
  | [] => []
  | s :: rest => if s.name == name then rest else s :: removeFirst name rest

/-- Python `ServerManager.add_server`.  `fileExists` models
`Path(file_path).exists()`.  A new `Server` is appended (auto-restart
defaults to true) and the registry is persisted; no log file is touched. -/
def add_server (fileExists : Bool) (p : PathInfo) (servers : List Server) :
    List Server × List Effect :=
  if !fileExists then (servers, [.msg "File does not exist!"])
  else
    match EXT_MAP (lowerStr p.suffix) with
    | none => (servers, [.msg "Unsupported file type!"])
    | some ty =>
      (servers ++ [mkServer p.stem p.str ty true],
       [.saveRegistry, .msg ("Server " ++ p.stem ++ " added. (Not started)")])

/-- Python `ServerManager.remove_server`: look the name up, stop that
server, remove it from the list, persist. -/
def remove_server (name : String) (servers : List Server) :
    List Server × List Effect :=
  match get_server name servers with
  | some s =>
    (removeFirst name servers,
     (s.stop).2 ++ [.saveRegistry, .msg ("Server " ++ name ++ " removed.")])
  | none => (servers, [.msg "Server not found."])

/-- Python `ServerManager.create_server`.  `folderExists` models
`(SERVERS_DIR / name).exists()`.  Unrecognized kinds fall into the
final `else`: the file gets extension `.<kind>` (original casing), a
JavaScript placeholder, and the server is registered with type
`node`. -/
def create_server (folderExists : Bool) (name ty : String)
    (servers : List Server) : List Server × List Effect :=
  if folderExists then
    (servers, [.msg ("Server folder \x27" ++ name ++ "\x27 already exists!")])
  else
    let tl := lowerStr ty
    let ext :=
      if tl == "py" || tl == "python" then ".py"
      else if tl == "node" || tl == "js" then ".js"
      else "." ++ ty
    let content :=
      if tl == "py" || tl == "python" then
        "# Default Python server\nprint(\x27Server running\x27)\nwhile True:\n    pass\n"
      else if tl == "node" || tl == "js" then
        "// Default Node.js server\nconsole.log(\x27Server running\x27);\nsetInterval(()=>\x7b\x7d,1000);\n"
      else
        "// Custom server file: ." ++ ty ++ "\nconsole.log(\x27Server running\x27);\n"
    let srv_type :=
      if tl == "py" || tl == "python" then "python"
      else if tl == "node" || tl == "js" then "node"
      else "node"
    let folder := "servers/" ++ name
    let server_file := folder ++ "/" ++ name ++ ext
    (servers ++ [mkServer name server_file srv_type true],
     [.mkdirp folder, .createFile server_file content, .saveRegistry,
      .msg ("Created server \x27" ++ name ++ "\x27 with file \x27" ++
            server_file ++ "\x27.")])

/-- Process handle of a child that has already exited by the time the
watcher polls it (the "exits immediately on every launch" scenario). -/
def deadProc : Proc := { pid := 0, alive := false, hasStdin := true }

/-- Fuel-indexed run of the `restart_loop` body of
`Server.start_restart_monitor`, under the scenario that every process
the supervisor spawns is `deadProc`, i.e. has exited by the time
`poll()` is called.  Returns `none` when the fuel runs out, and
`some (finalState, restarts)` when the loop exits (via the stop event
or via the max-retries `break`, both of which end the thread);
`restarts` counts the `self.start()` calls the watcher performed. -/
def watcherRunCrashy (sysExe : String) :
    Nat → Server → FS → Nat → Option (Server × Nat)
  | 0, _, _, _ => none
  | fuel + 1, s, fs, restarts =>
    if s.restart_stop then
      some ({ s with restart_thread_alive := false }, restarts)
    else
      match s.process with
      | none => watcherRunCrashy sysExe fuel s fs restarts
      | some p =>
        if p.alive then
          watcherRunCrashy sysExe fuel s fs restarts
        else if s.retry_count < s.max_retries then
          let s1 := { s with retry_count := s.retry_count + 1 }
          let r := s1.start sysExe deadProc false false "1970-01-01_00-00-00" fs
          watcherRunCrashy sysExe fuel r.1 r.2.1 (restarts + 1)
        else
          some ({ s with restart_thread_alive := false }, restarts)

/-- Handle of a healthy spawned process, for concrete witnesses. -/
def liveProc : Proc := { pid := 7, alive := true, hasStdin := true }

/-- Concrete stopped python server, for concrete witnesses. -/
def demoStopped : Server := mkServer "app" "app.py" "python" true

/-- Concrete running python server, for concrete witnesses. -/
def demoRunning : Server :=
  { mkServer "app" "app.py" "python" true with process := some liveProc }

/-- Concrete log directory holding the current log of `demoStopped`. -/
def demoFs : FS := [("logs/app.log", "old run output")]

/-- Concrete stopped server with a leftover retry count and a dead
watcher thread (the give-up state), for concrete witnesses. -/
def demoRetry : Server :=
  { mkServer "app" "app.py" "python" true with retry_count := 2 }

/-- Concrete crashed server with a leftover retry count whose watcher
thread is still alive (the watcher-initiated restart path), for
concrete witnesses. -/
def demoRetryAlive : Server :=
  { demoRetry with restart_thread_alive := true }

/-- Pre-existing registry entry named `a`, for the registry round-trip
counterexample. -/
def oldA : Server := mkServer "a" "/old/a.py" "python" true

/-- Path whose stem collides with the name of `oldA`. -/
def newAPath : PathInfo := { str := "/new/a.py", stem := "a", suffix := ".py" }

end SrvMgr

namespace StopRace

/-!
Interleaved two-thread model of `Server.stop()` running concurrently
with the `restart_loop` thread of `start_restart_monitor`, for an
auto-restarting server whose process has just crashed.  Each program
point of the Python code is a location; shared state is the fields both
threads read and write.  `join(timeout=1)` is modelled faithfully: it
returns either because the watcher thread has exited, or by timeout,
which is possible exactly when the watcher is inside its own 1-second
`time.sleep(1)` backoff (which lasts at least as long as the remaining
join window) or inside the subsequent `self.start()` call.
-/

/-- Program points of the main thread executing `Server.stop`. -/
inductive MainPc where
  | setDisarm
  | joinWatcher
  | checkRunning
  | done
deriving Repr, DecidableEq

/-- Program points of the `restart_loop` watcher thread. -/
inductive WatcherPc where
  | loopHead
  | pollProc
  | retryCheck
  | sleepBackoff
  | callStart
  | sleepLoop
  | exited
deriving Repr, DecidableEq

/-- Shared supervisor state visible to both threads, in the scenario of
one crashed process being stopped: `procAlive` is whether the current
process handle's `poll()` returns `None`. -/
structure Config where
  mainPc : MainPc
  watcherPc : WatcherPc
  restartStop : Bool
  procAlive : Bool
  retryCount : Nat
  maxRetries : Nat
deriving Repr, DecidableEq

/-- One step of the main thread (`stop()`).  At `joinWatcher` the join
returns when the thread has exited, or by timeout while the watcher is
sleeping in its backoff or busy inside `start()`; otherwise the main
thread is still blocked in the join and the step stutters. -/
def mainStep (c : Config) : Config :=
  match c.mainPc with
  | .setDisarm => { c with restartStop := true, mainPc := .joinWatcher }
  | .joinWatcher =>
    if c.watcherPc = .exited ∨ c.watcherPc = .sleepBackoff ∨
        c.watcherPc = .callStart then
      { c with mainPc := .checkRunning }
    else c
  | .checkRunning =>
    if c.procAlive then { c with procAlive := false, mainPc := .done }
    else { c with mainPc := .done }
  | .done => c

/-- One step of the watcher thread (`restart_loop`).  Note that after a
crash has been observed and the retry admitted, the backoff sleep and
the `self.start()` call are performed without re-checking the stop
event — exactly as in the source. -/
def watcherStep (c : Config) : Config :=
  match c.watcherPc with
  | .loopHead =>
    if c.restartStop then { c with watcherPc := .exited }
    else { c with watcherPc := .pollProc }
  | .pollProc =>
    if c.procAlive then { c with watcherPc := .sleepLoop }
    else { c with watcherPc := .retryCheck }
  | .retryCheck =>
    if c.retryCount < c.maxRetries then
      { c with retryCount := c.retryCount + 1, watcherPc := .sleepBackoff }
    else { c with watcherPc := .exited }
  | .sleepBackoff => { c with watcherPc := .callStart }
  | .callStart =>
    if c.procAlive then { c with watcherPc := .sleepLoop }
    else { c with procAlive := true, watcherPc := .sleepLoop }
  | .sleepLoop => { c with watcherPc := .loopHead }
  | .exited => c

/-- Scheduler-driven run: `true` lets the main thread step, `false` the
watcher thread. -/
def run (c : Config) (sched : List Bool) : Config :=
  sched.foldl (fun c b => if b then mainStep c else watcherStep c) c

/-- Initial configuration: an auto-restarting server with
`max_retries = 3` was started, its process crashed immediately, and the
operator calls `stop()` while the watcher is at its loop head. -/
def init : Config :=
  { mainPc := .setDisarm, watcherPc := .loopHead,
    restartStop := false, procAlive := false,
    retryCount := 0, maxRetries := 3 }

/-- The interleaving in which the watcher observes the crash and enters
its backoff sleep, then `stop()` runs to completion (its join timing
out against the watcher's sleep), and the watcher then relaunches the
process. -/
def resurrectionSched : List Bool :=
  [false, false, false, true, true, true, false, false]

end StopRace


namespace SrvMgr

/-- C1: the claim states that after `stop()` returns the process is never
Running, because `stop()` waits for the restart-watcher loop to have
exited before sending termination.  The code only joins the watcher
thread with a 1-second timeout, and the watcher performs its backoff
sleep and relaunch without re-checking the stop event, so there is an
interleaving — exhibited by `StopRace.resurrectionSched` — in which
`stop()` returns (reporting "not running") and the watcher thread then
relaunches the process: the process IS Running after `stop()` has
returned. -/
theorem stop_race_resurrection :
    (StopRace.run StopRace.init StopRace.resurrectionSched).mainPc =
      StopRace.MainPc.done ∧
    (StopRace.run StopRace.init StopRace.resurrectionSched).procAlive = true := by
  decide

/-- C4: `start()` on a Running process is a no-op apart from the
"already running" notice: the server state, the filesystem and the
process handle are returned unchanged, and the only effect is the
notice message (no rotation, no spawn, no watcher or sampler
attach). -/
theorem start_noop_when_running (sysExe timestamp : String) (np : Proc)
    (rF cF : Bool) (s : Server) (fs : FS) (h : s.is_running = true) :
    s.start sysExe np rF cF timestamp fs =
      (s, fs, [Effect.msg (s.name ++ " is already running.")]) := by
  simp [Server.start, h]

theorem start_noop_when_running_witness :
    demoRunning.start "py" deadProc false false "ts" [] =
      (demoRunning, [],
       [Effect.msg (demoRunning.name ++ " is already running.")]) :=
  start_noop_when_running "py" "ts" deadProc false false demoRunning [] rfl

/-- C7: `send_input(text)` writes exactly `text` followed by one newline
to the stdin pipe when the process is Running and the write succeeds;
when the process is not Running, or when the write raises, it only
prints a notice; in every case it returns without an exception and the
server state is unchanged. -/
theorem send_input_spec :
    (∀ (s : Server) (text : String), s.is_running = true →
      (s.process.map (fun p => p.hasStdin)).getD false = true →
      Server.send_input false s text = (s, [Effect.writeStdin (text ++ "\n")]))
    ∧ (∀ (s : Server) (text : String) (wF : Bool), s.is_running = false →
      Server.send_input wF s text =
        (s, [Effect.msg (s.name ++ " is not running.")]))
    ∧ (∀ (s : Server) (text : String), s.is_running = true →
      (s.process.map (fun p => p.hasStdin)).getD false = true →
      Server.send_input true s text =
        (s, [Effect.msg ("Failed to send input to " ++ s.name)])) := by
  refine ⟨?_, ?_, ?_⟩
  · intro s text h1 h2
    simp [Server.send_input, h1, h2]
  · intro s text wF h1
    simp [Server.send_input, h1]
  · intro s text h1 h2
    simp [Server.send_input, h1, h2]

theorem send_input_spec_witness :
    Server.send_input false demoRunning "ping" =
      (demoRunning, [Effect.writeStdin ("ping" ++ "\n")]) ∧
    Server.send_input false demoStopped "ping" =
      (demoStopped, [Effect.msg (demoStopped.name ++ " is not running.")]) ∧
    Server.send_input true demoRunning "ping" =
      (demoRunning, [Effect.msg ("Failed to send input to " ++ demoRunning.name)]) :=
  ⟨send_input_spec.1 demoRunning "ping" rfl rfl,
   send_input_spec.2.1 demoStopped "ping" false rfl,
   send_input_spec.2.2 demoRunning "ping" rfl rfl⟩

/-- C8: launch-command resolution: type `python` runs the host
interpreter binary (`sys.executable`) on the target file as sole
argument, type `node` runs the fixed binary name `node` on it, and any
other type makes `start()` return with a reported message, the server
still Stopped and no side effects (state and filesystem unchanged, no
spawn, no rotation). -/
theorem launch_mapping :
    (∀ sysExe pth, launchCmd sysExe "python" pth = some [sysExe, pth])
    ∧ (∀ sysExe pth, launchCmd sysExe "node" pth = some ["node", pth])
    ∧ (∀ (sysExe timestamp : String) (np : Proc) (rF cF : Bool)
        (s : Server) (fs : FS), s.is_running = false →
        s.type ≠ "python" → s.type ≠ "node" →
        s.start sysExe np rF cF timestamp fs =
          (s, fs, [Effect.msg ("Unknown server type for " ++ s.name)])) := by
  refine ⟨fun sysExe pth => rfl, fun sysExe pth => rfl, ?_⟩
  intro sysExe timestamp np rF cF s fs h1 h2 h3
  simp [Server.start, h1, launchCmd, h2, h3]

theorem launch_mapping_witness :
    launchCmd "py" "python" "app.py" = some ["py", "app.py"] ∧
    launchCmd "py" "node" "app.js" = some ["node", "app.js"] ∧
    Server.start "py" liveProc false false "ts"
        (mkServer "w" "w.rb" "ruby" true) [] =
      (mkServer "w" "w.rb" "ruby" true, [],
       [Effect.msg ("Unknown server type for " ++ (mkServer "w" "w.rb" "ruby" true).name)]) :=
  ⟨launch_mapping.1 "py" "app.py", launch_mapping.2.1 "py" "app.js",
   launch_mapping.2.2 "py" "ts" liveProc false false
     (mkServer "w" "w.rb" "ruby" true) [] rfl (by decide) (by decide)⟩

end SrvMgr

namespace SrvMgr

/-- C2: for a server with max_retries = 3 whose process has exited by the
time the watcher polls, on every launch, the restart loop attached by one
explicit start performs exactly 3 restart attempts (retry_count ends at
3), then exits permanently (the thread is no longer alive), regardless
of how much longer the loop could have kept polling — so a 4th crash
triggers no further restart. -/
theorem restart_bound (sysExe n p : String) (fs : FS) (k : Nat) :
    (watcherRunCrashy sysExe (k + 4)
        { name := n, path := p, type := "python", auto_restart := true,
          monitor_enabled := false, process := some deadProc,
          retry_count := 0, max_retries := 3,
          restart_stop := false, restart_thread_alive := true } fs 0).map
      (fun r => (r.1.retry_count, r.1.restart_thread_alive, r.2)) =
    some (3, false, 3) := by
  simp [watcherRunCrashy, Server.start, Server.is_running, launchCmd,
        Server.start_restart_monitor, deadProc, Server._rotate_log]

/-- C3: retry_count is reset to 0 by an explicit start of an
auto-restarting server from the quiescent state (watcher thread not
alive), and every start performed while the watcher thread is alive —
which is exactly the watcher-initiated restart path — carries
retry_count forward unchanged. -/
theorem retry_reset_policy :
    (∀ (sysExe timestamp : String) (np : Proc) (rF cF : Bool)
      (s : Server) (fs : FS), s.is_running = false →
      s.restart_thread_alive = false → s.auto_restart = true →
      (launchCmd sysExe s.type s.path).isSome = true →
      ((s.start sysExe np rF cF timestamp fs).1).retry_count = 0)
    ∧ (∀ (sysExe timestamp : String) (np : Proc) (rF cF : Bool)
      (s : Server) (fs : FS), s.restart_thread_alive = true →
      ((s.start sysExe np rF cF timestamp fs).1).retry_count = s.retry_count) := by
  constructor
  · intro sysExe timestamp np rF cF s fs h1 h2 h3 h4
    rcases hc : launchCmd sysExe s.type s.path with _ | cmd
    · rw [hc] at h4; simp at h4
    · simp [Server.start, h1, hc, Server.start_restart_monitor, h2, h3]
  · intro sysExe timestamp np rF cF s fs h
    cases hr : s.is_running
    · rcases hc : launchCmd sysExe s.type s.path with _ | cmd
      · simp [Server.start, hr, hc]
      · simp [Server.start, hr, hc, Server.start_restart_monitor, h]
    · simp [Server.start, hr]

theorem retry_reset_policy_witness :
    ((demoRetry.start "py" liveProc false false "ts" []).1).retry_count = 0 ∧
    ((demoRetryAlive.start "py" liveProc false false "ts" []).1).retry_count =
      demoRetryAlive.retry_count :=
  ⟨retry_reset_policy.1 "py" "ts" liveProc false false demoRetry [] rfl rfl rfl rfl,
   retry_reset_policy.2 "py" "ts" liveProc false false demoRetryAlive [] rfl⟩

/-- C9: remove(name) on a registered server that is currently Running
first stops it — disarming the restart watcher and terminating the
process — and only then deletes the registry entry and persists: the
effect sequence is disarm, terminate, stop notice, then registry save;
and the stopped server is no longer running. -/
theorem remove_running_stops_first (name : String) (m : List Server)
    (s : Server) (hget : get_server name m = some s)
    (hrun : s.is_running = true) :
    remove_server name m =
      (removeFirst name m,
       [Effect.disarmWatcher, Effect.terminate,
        Effect.msg ("Server " ++ s.name ++ " stopped."),
        Effect.saveRegistry, Effect.msg ("Server " ++ name ++ " removed.")])
    ∧ ((s.stop).1).is_running = false := by
  rcases hp : s.process with _ | pr
  · simp [Server.is_running, hp] at hrun
  · simp [Server.is_running, hp] at hrun
    constructor
    · simp [remove_server, hget, Server.stop, Server.is_running, hp, hrun]
    · simp [Server.stop, Server.is_running, hp, hrun]

theorem remove_running_stops_first_witness :
    remove_server "app" [demoRunning] =
      ([],
       [Effect.disarmWatcher, Effect.terminate,
        Effect.msg ("Server " ++ demoRunning.name ++ " stopped."),
        Effect.saveRegistry, Effect.msg ("Server " ++ "app" ++ " removed.")])
    ∧ ((demoRunning.stop).1).is_running = false := by
  have h := remove_running_stops_first "app" [demoRunning] demoRunning rfl rfl
  simpa [removeFirst] using h

/-- C10: create(name, kind) with a kind outside {py, python} and
{node, js} (case-insensitively) is not rejected: it creates the folder,
scaffolds a file named name.kind with the JavaScript placeholder
content, registers the server with runtime type node, persists, and a
later start of that server resolves the node launch command on the
scaffolded file. -/
theorem create_unknown_kind (name ty : String) (m : List Server)
    (h1 : lowerStr ty ≠ "py") (h2 : lowerStr ty ≠ "python")
    (h3 : lowerStr ty ≠ "node") (h4 : lowerStr ty ≠ "js") :
    create_server false name ty m =
      (m ++ [mkServer name ("servers/" ++ name ++ "/" ++ name ++ "." ++ ty)
               "node" true],
       [Effect.mkdirp ("servers/" ++ name),
        Effect.createFile ("servers/" ++ name ++ "/" ++ name ++ "." ++ ty)
          ("// Custom server file: ." ++ ty ++
           "\nconsole.log(\x27Server running\x27);\n"),
        Effect.saveRegistry,
        Effect.msg ("Created server \x27" ++ name ++ "\x27 with file \x27" ++
          ("servers/" ++ name ++ "/" ++ name ++ "." ++ ty) ++ "\x27.")])
    ∧ launchCmd "py" "node" ("servers/" ++ name ++ "/" ++ name ++ "." ++ ty) =
        some ["node", "servers/" ++ name ++ "/" ++ name ++ "." ++ ty] := by
  constructor
  · simp [create_server, h1, h2, h3, h4, String.append_assoc]
  · rfl

theorem create_unknown_kind_witness :
    create_server false "web" "rb" [] =
      ([mkServer "web" ("servers/" ++ "web" ++ "/" ++ "web" ++ "." ++ "rb")
          "node" true],
       [Effect.mkdirp ("servers/" ++ "web"),
        Effect.createFile ("servers/" ++ "web" ++ "/" ++ "web" ++ "." ++ "rb")
          ("// Custom server file: ." ++ "rb" ++
           "\nconsole.log(\x27Server running\x27);\n"),
        Effect.saveRegistry,
        Effect.msg ("Created server \x27" ++ "web" ++ "\x27 with file \x27" ++
          ("servers/" ++ "web" ++ "/" ++ "web" ++ "." ++ "rb") ++ "\x27.")])
    ∧ launchCmd "py" "node" ("servers/" ++ "web" ++ "/" ++ "web" ++ "." ++ "rb") =
        some ["node", "servers/" ++ "web" ++ "/" ++ "web" ++ "." ++ "rb"] := by
  have h := create_unknown_kind "web" "rb" [] (by decide) (by decide)
    (by decide) (by decide)
  simpa using h

end SrvMgr

namespace SrvMgr

theorem FS.get_set_self (fs : FS) (p v : String) : (fs.set p v).get p = some v := by
  simp [FS.set, FS.get, List.find?_cons]

theorem FS.get_del_ne (fs : FS) (p q : String) (h : q ≠ p) :
    (fs.del p).get q = fs.get q := by
  induction fs with
  | nil => rfl
  | cons e rest ih =>
    obtain ⟨e1, e2⟩ := e
    by_cases he : e1 = p
    · subst he
      have hpq : (e1 == q) = false := by simpa using Ne.symm h
      simp only [FS.del, FS.get, List.filter_cons, bne_self_eq_false,
        Bool.false_eq_true, if_false, List.find?_cons, hpq] at ih ⊢
      simpa [FS.del, FS.get] using ih
    · by_cases heq : e1 = q
      · subst heq
        have hne : (e1 != p) = true := by simpa using he
        simp [FS.del, FS.get, List.filter_cons, List.find?_cons, hne]
      · have hne : (e1 != p) = true := by simpa using he
        have hq : (e1 == q) = false := by simpa using heq
        simp only [FS.del, FS.get, List.filter_cons, hne, if_true,
          List.find?_cons, hq] at ih ⊢
        simpa [FS.del, FS.get] using ih

theorem FS.get_set_ne (fs : FS) (p q v : String) (h : q ≠ p) :
    (fs.set p v).get q = fs.get q := by
  have hpq : (p == q) = false := by
    simp
    exact fun hh => h hh.symm
  simp [FS.set, FS.get, List.find?_cons, hpq]
  have := FS.get_del_ne fs p q h
  simpa [FS.get] using this

theorem FS.get_isSome_of_contains (fs : FS) (p : String)
    (h : fs.contains p = true) : ∃ v, fs.get p = some v := by
  induction fs with
  | nil => simp [FS.contains] at h
  | cons e rest ih =>
    by_cases he : e.1 = p
    · exact ⟨e.2, by simp [FS.get, List.find?_cons, he]⟩
    · have h' : FS.contains rest p = true := by
        simpa [FS.contains, List.any_cons, he] using h
      obtain ⟨v, hv⟩ := ih h'
      refine ⟨v, ?_⟩
      simpa [FS.get, List.find?_cons, he] using hv

theorem rotated_ne_log_file (n ts : String) :
    rotatedName n ts ≠ "logs/" ++ n ++ ".log" := by
  intro h
  have h2 := congrArg String.length h
  have hd : ("_" : String).length = 1 := rfl
  simp only [rotatedName, String.length_append, hd] at h2
  omega

theorem start_run_eq (sysExe timestamp : String) (np : Proc)
    (rF cF : Bool) (s : Server) (fs : FS) (cmd : List String)
    (hrun : s.is_running = false)
    (hcmd : launchCmd sysExe s.type s.path = some cmd) :
    s.start sysExe np rF cF timestamp fs =
      ((if s.auto_restart then
          ({ s with process := some np }).start_restart_monitor
        else { s with process := some np }),
       ((s._rotate_log rF cF timestamp fs).1).set s.log_file "",
       (s._rotate_log rF cF timestamp fs).2 ++
         [Effect.openLogWrite s.log_file, Effect.spawn cmd,
          Effect.msg ("Server " ++ s.name ++ " started (PID: " ++
            toString np.pid ++ "). Logs: " ++ s.log_file)] ++
         (if s.monitor_enabled then [Effect.startMonitor] else [])) := by
  simp [Server.start, hrun, hcmd]

/-- C6: on every start of a non-running server whose current log exists,
the log is rotated to name_timestamp.log before the fresh log is opened
and the process spawned (the effect list begins with the rotation
effects); the primary rename path and the copy-and-delete fallback both
leave the old content under the rotated name and a fresh current log;
when both fail a warning is reported and the current log is simply
overwritten — in every failure mode the spawn still happens. -/
theorem log_rotation_on_start (sysExe timestamp : String) (np : Proc)
    (s : Server) (fs : FS) (cmd : List String)
    (hrun : s.is_running = false)
    (hcmd : launchCmd sysExe s.type s.path = some cmd)
    (hlog : fs.contains s.log_file = true) :
    (∀ rF cF : Bool,
      ((s.start sysExe np rF cF timestamp fs).1).process = some np)
    ∧ (∀ rF cF : Bool, (s.start sysExe np rF cF timestamp fs).2.2 =
        (s._rotate_log rF cF timestamp fs).2 ++
        [Effect.openLogWrite s.log_file, Effect.spawn cmd,
         Effect.msg ("Server " ++ s.name ++ " started (PID: " ++
           toString np.pid ++ "). Logs: " ++ s.log_file)] ++
        (if s.monitor_enabled then [Effect.startMonitor] else []))
    ∧ (∀ cF : Bool,
        ((s.start sysExe np false cF timestamp fs).2.1).get
            (rotatedName s.name timestamp) = fs.get s.log_file
        ∧ ((s.start sysExe np false cF timestamp fs).2.1).get s.log_file =
            some "")
    ∧ (((s.start sysExe np true false timestamp fs).2.1).get
            (rotatedName s.name timestamp) = fs.get s.log_file
        ∧ ((s.start sysExe np true false timestamp fs).2.1).get s.log_file =
            some "")
    ∧ (Effect.msg ("Failed to rotate log for " ++ s.name) ∈
          (s.start sysExe np true true timestamp fs).2.2
        ∧ ((s.start sysExe np true true timestamp fs).2.1).get s.log_file =
            some "") := by
  have hne : rotatedName s.name timestamp ≠ s.log_file := by
    have := rotated_ne_log_file s.name timestamp
    simpa [Server.log_file] using this
  obtain ⟨v, hv⟩ := FS.get_isSome_of_contains fs s.log_file hlog
  refine ⟨?_, ?_, ?_, ?_, ?_⟩
  · intro rF cF
    rw [start_run_eq sysExe timestamp np rF cF s fs cmd hrun hcmd]
    rcases har : s.auto_restart <;> rcases hta : s.restart_thread_alive <;>
      simp [Server.start_restart_monitor, hta]
  · intro rF cF
    rw [start_run_eq sysExe timestamp np rF cF s fs cmd hrun hcmd]
  · intro cF
    rw [start_run_eq sysExe timestamp np false cF s fs cmd hrun hcmd]
    have hrot : (s._rotate_log false cF timestamp fs).1 =
        fs.rename s.log_file (rotatedName s.name timestamp) := by
      simp [Server._rotate_log, hlog]
    constructor
    · rw [hrot, FS.get_set_ne _ _ _ _ hne, FS.rename, hv, FS.get_set_self]
    · rw [FS.get_set_self]
  · rw [start_run_eq sysExe timestamp np true false s fs cmd hrun hcmd]
    have hrot : (s._rotate_log true false timestamp fs).1 =
        ((fs.set (rotatedName s.name timestamp)
            ((fs.get s.log_file).getD "")).del s.log_file) := by
      simp [Server._rotate_log, hlog]
    constructor
    · rw [hrot, hv, FS.get_set_ne _ _ _ _ hne,
        FS.get_del_ne _ _ _ hne, FS.get_set_self]
      rfl
    · rw [FS.get_set_self]
  · rw [start_run_eq sysExe timestamp np true true s fs cmd hrun hcmd]
    have hrot : s._rotate_log true true timestamp fs =
        (fs, [Effect.msg ("Failed to rotate log for " ++ s.name)]) := by
      simp [Server._rotate_log, hlog]
    constructor
    · rw [hrot]
      simp
    · rw [hrot, FS.get_set_self]

theorem log_rotation_on_start_witness :
    ((demoStopped.start "py" liveProc false false "ts" demoFs).1).process =
        some liveProc
    ∧ ((demoStopped.start "py" liveProc false false "ts" demoFs).2.1).get
        (rotatedName demoStopped.name "ts") = demoFs.get demoStopped.log_file
    ∧ Effect.msg ("Failed to rotate log for " ++ demoStopped.name) ∈
        (demoStopped.start "py" liveProc true true "ts" demoFs).2.2 :=
  ⟨(log_rotation_on_start "py" "ts" liveProc demoStopped demoFs
      ["py", "app.py"] rfl rfl rfl).1 false false,
   ((log_rotation_on_start "py" "ts" liveProc demoStopped demoFs
      ["py", "app.py"] rfl rfl rfl).2.2.1 false).1,
   (log_rotation_on_start "py" "ts" liveProc demoStopped demoFs
      ["py", "app.py"] rfl rfl rfl).2.2.2.2.1⟩

end SrvMgr

namespace SrvMgr

theorem get_server_append_last (m : List Server) (srv : Server)
    (h : ∀ s ∈ m, s.name ≠ srv.name) :
    get_server srv.name (m ++ [srv]) = some srv := by
  induction m with
  | nil => simp [get_server]
  | cons a rest ih =>
    have ha : (a.name == srv.name) = false := by
      simpa using h a (List.mem_cons_self a rest)
    have ih' := ih (fun s hs => h s (List.mem_cons_of_mem a hs))
    simpa [get_server, List.find?_cons, ha] using ih'

theorem removeFirst_append_last (m : List Server) (srv : Server)
    (h : ∀ s ∈ m, s.name ≠ srv.name) :
    removeFirst srv.name (m ++ [srv]) = m := by
  induction m with
  | nil => simp [removeFirst]
  | cons a rest ih =>
    have ha : (a.name == srv.name) = false := by
      simpa using h a (List.mem_cons_self a rest)
    have ih' := ih (fun s hs => h s (List.mem_cons_of_mem a hs))
    simp [removeFirst, ha, ih']

/-- C5: the claim quantifies over every registry state, but when an
already-registered server bears the name `add` derives from the path,
`remove(name)` deletes that pre-existing first match instead of the
newly added entry, so the pair does not restore the registry: with
registry `[oldA]` (named `a`, path `/old/a.py`), adding `/new/a.py`
and removing `a` yields `[new entry]`, not `[oldA]`. -/
theorem add_remove_not_roundtrip :
    (remove_server "a" (add_server true newAPath [oldA]).1).1 ≠ [oldA] := by
  decide

/-- C5 (amended): for every registry state in which no existing entry
has the name derived from the path, add(path) followed by remove(name)
returns the registry to its original state, and the pair of operations
never creates, deletes or modifies any file (no log file is touched;
only the registry store is persisted). -/
theorem add_remove_roundtrip_fresh (p : PathInfo) (m : List Server)
    (ty : String) (hty : EXT_MAP (lowerStr p.suffix) = some ty)
    (hfresh : ∀ s ∈ m, s.name ≠ p.stem) :
    (remove_server p.stem (add_server true p m).1).1 = m
    ∧ ((add_server true p m).2 ++
        (remove_server p.stem (add_server true p m).1).2).all
        (fun e => !e.touchesFiles) = true := by
  have hadd1 : (add_server true p m).1 = m ++ [mkServer p.stem p.str ty true] := by
    simp [add_server, hty]
  have hadd2 : (add_server true p m).2 =
      [Effect.saveRegistry,
       Effect.msg ("Server " ++ p.stem ++ " added. (Not started)")] := by
    simp [add_server, hty]
  have hfresh' : ∀ s ∈ m, s.name ≠ (mkServer p.stem p.str ty true).name := by
    simpa [mkServer] using hfresh
  have hget := get_server_append_last m (mkServer p.stem p.str ty true) hfresh'
  have hrem := removeFirst_append_last m (mkServer p.stem p.str ty true) hfresh'
  constructor
  · rw [hadd1]
    simp only [remove_server]
    rw [show (mkServer p.stem p.str ty true).name = p.stem from rfl] at hget hrem
    rw [hget, hrem]
  · rw [hadd1, hadd2]
    simp only [remove_server]
    rw [show (mkServer p.stem p.str ty true).name = p.stem from rfl] at hget hrem
    rw [hget]
    simp [Server.stop, mkServer, Server.is_running, Effect.touchesFiles]

theorem add_remove_roundtrip_fresh_witness :
    (remove_server "b" (add_server true
        { str := "/new/b.py", stem := "b", suffix := ".py" } [oldA]).1).1 =
      [oldA]
    ∧ ((add_server true { str := "/new/b.py", stem := "b", suffix := ".py" } [oldA]).2 ++
        (remove_server "b" (add_server true
          { str := "/new/b.py", stem := "b", suffix := ".py" } [oldA]).1).2).all
        (fun e => !e.touchesFiles) = true :=
  add_remove_roundtrip_fresh
    { str := "/new/b.py", stem := "b", suffix := ".py" } [oldA] "python"
    (by decide) (by decide)

end SrvMgr
